import Mathlib

/-!
Verification of the endpoint-health scheduler core of the real-time
monitoring tool.  The definitions below are a shallow embedding of the Go
source: `models/monitor.go`, `models/metric.go`,
`services/monitor_service.go`, `services/websocket_service.go` and
`handlers/api_handlers.go`.  Machine integers are modelled as `Int`,
Go `float64` arithmetic as exact rational arithmetic over `ℚ`, timestamps
as seconds since an arbitrary epoch, Mongo collections as Lean lists, and
Go buffered channels as lists bounded by an explicit capacity.
-/

namespace MonitoringTool

/-- Monitor document, from `models/monitor.go` (`Monitor`). -/
structure Monitor where
  id : String
  name : String
  url : String
  method : String
  interval : Int
  timeout : Int
  status : String
  isActive : Bool
  currentStatus : String
  currentResponse : Int
  uptimePercentage : ℚ
  lastChecked : Option Int
deriving Repr, DecidableEq

/-- Metric document, from `models/metric.go` (`Metric`). -/
structure Metric where
  monitorId : String
  url : String
  status : String
  statusCode : Int
  responseTime : Int
  errorMsg : String
  checkedAt : Int
deriving Repr, DecidableEq

/-- Live status update payload, from `models/metric.go` (`MonitorUpdate`). -/
structure MonitorUpdate where
  monitorId : String
  status : String
  statusCode : Int
  responseTime : Int
  url : String
  errorMsg : String
  timestamp : Int
  uptimePercentage : ℚ
deriving Repr, DecidableEq

/-- Payload of a websocket message: either a metric update or a plain
informational map such as the welcome message. -/
inductive MessageData where
  | update (u : MonitorUpdate)
  | info (status message : String)
deriving Repr, DecidableEq

/-- Websocket envelope, from `models/metric.go` (`WebSocketMessage`). -/
structure WebSocketMessage where
  type : String
  data : MessageData
  monitorId : String
deriving Repr, DecidableEq

/-! ### Probe executor (`checkEndpoint`, monitor_service.go) -/

/-- Outcome of one probe attempt as seen by `checkEndpoint`: the request
constructor may fail, the HTTP client may fail at transport level, or a
response with a status code arrives after `elapsedMs` milliseconds. -/
inductive ProbeOutcome where
  | reqError (msg : String)
  | transportError (msg : String) (elapsedMs : Int)
  | response (code : Int) (elapsedMs : Int)
deriving Repr, DecidableEq

/-- Arguments `checkEndpoint` passes to `recordMetric`. -/
structure ProbeResult where
  status : String
  statusCode : Int
  responseTime : Int
  errorMsg : String
deriving Repr, DecidableEq

/-- Classification performed by `checkEndpoint` (monitor_service.go):
request-construction failure records ("down", 0, 0, err); a transport
failure records ("down", 0, elapsed, err); a completed exchange records
("down" when the code is at least 400 else "up", the actual code,
elapsed, ""). -/
def classifyProbe : ProbeOutcome → ProbeResult
  | .reqError msg => ⟨"down", 0, 0, msg⟩
  | .transportError msg t => ⟨"down", 0, t, msg⟩
  | .response code t => ⟨if 400 ≤ code then "down" else "up", code, t, ""⟩

/-! ### Uptime calculation (`calculateUptimePercentage`, monitor_service.go) -/

/-- Width of the trailing uptime window in seconds (24 hours). -/
def uptimeWindowSeconds : Int := 24 * 3600

/-- Metrics selected by the Mongo filter of `calculateUptimePercentage`:
same monitor id and `checked_at` at or after `now` minus 24 hours. -/
def uptimeWindow (db : List Metric) (mid : String) (now : Int) : List Metric :=
  db.filter (fun m => m.monitorId == mid && decide (now - uptimeWindowSeconds ≤ m.checkedAt))

/-- `calculateUptimePercentage` (monitor_service.go): scan the trailing
24-hour window, count total and "down" samples, return 100 when the
window is empty and `(total - down) / total * 100` otherwise. -/
def calculateUptimePercentage (db : List Metric) (mid : String) (now : Int) : ℚ :=
  let window := uptimeWindow db mid now
  let total := window.length
  let down := window.countP (fun m => m.status == "down")
  if total = 0 then 100 else ((total : ℚ) - (down : ℚ)) / (total : ℚ) * 100

/-! ### Channel sends and the broadcast hand-off -/

/-- Capacity of the hub's `Broadcast` channel (`NewWebSocketHub`,
websocket_service.go). -/
def broadcastCapacity : Nat := 256

/-- Result of attempting to enqueue into a buffered channel. -/
inductive HandOff where
  | enqueued (queue : List WebSocketMessage)
  | blocked
  | dropped
deriving Repr, DecidableEq

/-- Go semantics of a plain send on a buffered channel: append while the
buffer is below capacity, otherwise the sending goroutine blocks. -/
def blockingSend (q : List WebSocketMessage) (cap : Nat) (m : WebSocketMessage) : HandOff :=
  if q.length < cap then .enqueued (q ++ [m]) else .blocked

/-- Go semantics of a `select` send with a `default` branch: append while
the buffer is below capacity, otherwise drop the message. -/
def selectDefaultSend (q : List WebSocketMessage) (cap : Nat) (m : WebSocketMessage) : HandOff :=
  if q.length < cap then .enqueued (q ++ [m]) else .dropped

/-- `BroadcastToAll` (websocket_service.go): non-blocking hand-off to the
hub's inbound queue, dropping the message with a warning when the queue
is full.  No caller in the repository uses it; `recordMetric` sends to
the `Broadcast` channel directly with a plain send. -/
def BroadcastToAll (q : List WebSocketMessage) (messageType : String) (d : MessageData) :
    HandOff :=
  selectDefaultSend q broadcastCapacity ⟨messageType, d, ""⟩

/-! ### Result sink (`recordMetric`, monitor_service.go) -/

/-- `updateMonitorStatus` (monitor_service.go): set the cached
current-status fields of the monitor document with the given id. -/
def updateMonitorStatus (monitors : List Monitor) (mid : String) (status : String)
    (responseTime : Int) (lastChecked : Int) : List Monitor :=
  monitors.map (fun m =>
    if m.id == mid then
      { m with currentStatus := status, currentResponse := responseTime,
               lastChecked := some lastChecked }
    else m)

/-- State touched by the Result Sink: the metrics collection, the monitors
collection and the hub's inbound `Broadcast` queue. -/
structure SinkState where
  metricsDb : List Metric
  monitorsDb : List Monitor
  hubQueue : List WebSocketMessage
deriving Repr, DecidableEq

/-- Result of one `recordMetric` call: the new state, the update event it
built, and how the hand-off to the hub's queue went. -/
structure SinkResult where
  state : SinkState
  update : MonitorUpdate
  handOff : HandOff
deriving Repr, DecidableEq

/-- `recordMetric` (monitor_service.go): append the metric, update the
monitor's cached fields, recompute the uptime percentage over the
post-insert metric log, then send the update event to the hub's
`Broadcast` channel with a plain (blocking) channel send. -/
def recordMetric (st : SinkState) (monitor : Monitor) (r : ProbeResult) (now : Int) :
    SinkResult :=
  let metric : Metric :=
    ⟨monitor.id, monitor.url, r.status, r.statusCode, r.responseTime, r.errorMsg, now⟩
  let metricsDb := st.metricsDb ++ [metric]
  let monitorsDb := updateMonitorStatus st.monitorsDb monitor.id r.status r.responseTime now
  let uptime := calculateUptimePercentage metricsDb monitor.id now
  let update : MonitorUpdate :=
    ⟨monitor.id, r.status, r.statusCode, r.responseTime, monitor.url, r.errorMsg, now, uptime⟩
  let msg : WebSocketMessage := ⟨"metric_update", .update update, monitor.id⟩
  let hOff := blockingSend st.hubQueue broadcastCapacity msg
  let newQueue :=
    match hOff with
    | .enqueued q => q
    | .blocked => st.hubQueue
    | .dropped => st.hubQueue
  ⟨⟨metricsDb, monitorsDb, newQueue⟩, update, hOff⟩

/-- `checkEndpoint` (monitor_service.go): classify the probe outcome and
record it through `recordMetric`; every code path of `checkEndpoint`
ends in exactly one `recordMetric` call. -/
def checkEndpoint (st : SinkState) (monitor : Monitor) (o : ProbeOutcome) (now : Int) :
    SinkResult :=
  recordMetric st monitor (classifyProbe o) now

/-! ### Job registry (`startMonitorJob` / `stopMonitorJob`, monitor_service.go) -/

/-- State of the job registry: the `activeJobs` map (monitor id to stop
channel, modelled as an association list with one entry per key, like a
Go map), the set of stop channels that have been closed, and a fresh
channel allocator. -/
structure RegState where
  activeJobs : List (String × Nat)
  closed : List Nat
  nextChan : Nat
deriving Repr, DecidableEq

/-- Lookup of `activeJobs` at a monitor id. -/
def lookupJob (s : RegState) (mid : String) : Option Nat :=
  (s.activeJobs.find? (fun p => p.1 == mid)).map (fun p => p.2)

/-- `startMonitorJob` (monitor_service.go): under one `jobsMutex`
acquisition, close the existing stop channel when one is registered,
then install a fresh stop channel for the id. -/
def startMonitorJob (s : RegState) (mid : String) : RegState :=
  let closedNow :=
    match lookupJob s mid with
    | some c => c :: s.closed
    | none => s.closed
  { activeJobs := (mid, s.nextChan) :: s.activeJobs.filter (fun p => !(p.1 == mid)),
    closed := closedNow,
    nextChan := s.nextChan + 1 }

/-- `stopMonitorJob` (monitor_service.go): when a stop channel is
registered for the id, close it and remove the map entry; otherwise do
nothing. -/
def stopMonitorJob (s : RegState) (mid : String) : RegState :=
  match lookupJob s mid with
  | some c =>
      { activeJobs := s.activeJobs.filter (fun p => !(p.1 == mid)),
        closed := c :: s.closed,
        nextChan := s.nextChan }
  | none => s

/-- Mutating registry operations, each performed under the single mutex. -/
inductive RegOp where
  | start (mid : String)
  | stop (mid : String)
deriving Repr, DecidableEq

/-- One atomic registry transition. -/
def regStep (s : RegState) : RegOp → RegState
  | .start mid => startMonitorJob s mid
  | .stop mid => stopMonitorJob s mid

/-- Registry state at process start: no jobs, no closed channels. -/
def initialRegState : RegState := ⟨[], [], 0⟩

/-- Registry state after a sequence of start/stop operations. -/
def runRegOps (ops : List RegOp) : RegState := ops.foldl regStep initialRegState

/-! ### Scheduler loop (goroutine of `startMonitorJob`) -/

/-- Events the loop's `select` can receive: a ticker tick or the stop
channel firing. -/
inductive LoopEvent where
  | tick
  | stopSignal
deriving Repr, DecidableEq

/-- Body of the monitoring goroutine after the initial check: each tick
runs `checkEndpoint` on that tick's probe outcome, the stop signal
returns at once.  The trace pairs each received event with the outcome
its probe would have.  Returns the probe results recorded (in order)
and whether the stop signal was received. -/
def schedulerLoop : List (LoopEvent × ProbeOutcome) → List ProbeResult × Bool
  | [] => ([], false)
  | (.tick, o) :: rest =>
      let (rs, stopped) := schedulerLoop rest
      (classifyProbe o :: rs, stopped)
  | (.stopSignal, _) :: _ => ([], true)

/-- The full goroutine of `startMonitorJob`: one immediate check, then
the ticker loop. -/
def monitorJobRun (first : ProbeOutcome) (evts : List (LoopEvent × ProbeOutcome)) :
    List ProbeResult × Bool :=
  let (rs, stopped) := schedulerLoop evts
  (classifyProbe first :: rs, stopped)

/-- Push every probe result recorded by the loop through the Result Sink,
in order, starting from sink state `st`. -/
def monitorJobRunSink (st : SinkState) (mon : Monitor) (now : Int) (first : ProbeOutcome)
    (evts : List (LoopEvent × ProbeOutcome)) : SinkState × Bool :=
  let (rs, stopped) := monitorJobRun first evts
  (rs.foldl (fun s r => (recordMetric s mon r now).state) st, stopped)

/-! ### Hub broadcast (`WebSocketHub.Run`, websocket_service.go) -/

/-- Registered observer: connection id, buffered outbound queue, and the
queue's capacity (`Send` is created with capacity 256). -/
structure Client where
  id : String
  send : List WebSocketMessage
  sendCap : Nat
deriving Repr, DecidableEq

/-- Broadcast case of `WebSocketHub.Run`: for each registered client try a
non-blocking send of the message to its outbound queue; a client whose
queue is full is evicted through `unregisterClient` (removed from the
set, its queue closed).  Returns the surviving clients (with the message
appended) and the ids of the evicted ones. -/
def hubBroadcast : List Client → WebSocketMessage → List Client × List String
  | [], _ => ([], [])
  | c :: rest, m =>
      let (survivors, evicted) := hubBroadcast rest m
      if c.send.length < c.sendCap then
        ({ c with send := c.send ++ [m] } :: survivors, evicted)
      else
        (survivors, c.id :: evicted)

/-! ### Service API (`CreateMonitor`, `DeleteMonitor`, `GetMetrics`) -/

/-- Error text produced by `CreateMonitor` on a duplicate URL. -/
def duplicateURLError (url : String) : String :=
  "monitor with URL " ++ url ++ " already exists"

/-- `CreateMonitor` (monitor_service.go): count documents with the same
URL; when any exists return the duplicate error and leave the collection
unchanged, otherwise insert the monitor.  Returns the new collection and
the error, if any. -/
def CreateMonitor (db : List Monitor) (m : Monitor) : List Monitor × Option String :=
  if 0 < db.countP (fun x => x.url == m.url) then (db, some (duplicateURLError m.url))
  else (db ++ [m], none)

/-- `CreateMonitor` handler (api_handlers.go): HTTP 201 on success, 409
when the error text is exactly the duplicate-URL message, 500 otherwise.
Returns the new collection and the HTTP status code. -/
def createMonitorHandler (db : List Monitor) (m : Monitor) : List Monitor × Nat :=
  match CreateMonitor db m with
  | (db2, none) => (db2, 201)
  | (db2, some e) => (db2, if e == duplicateURLError m.url then 409 else 500)

/-- `DeleteMonitor` (monitor_service.go): stop the monitoring job first
(unconditionally), then delete the document with the given id; when
nothing was deleted report "monitor not found".  Returns the new
monitors collection, the new registry state, and the error, if any. -/
def DeleteMonitor (db : List Monitor) (jobs : RegState) (id : String) :
    List Monitor × RegState × Option String :=
  let jobs2 := stopMonitorJob jobs id
  if db.countP (fun m => m.id == id) = 0 then (db, jobs2, some "monitor not found")
  else (db.eraseP (fun m => m.id == id), jobs2, none)

/-- Hours clamp of the `GetMetrics` handler (api_handlers.go): a request
whose hours parameter fails to parse, is below 1 or is above 168 falls
back to 24. -/
def clampHours : Option Int → Int
  | none => 24
  | some h => if h < 1 || 168 < h then 24 else h

/-- Descending order on `checked_at`, the sort key of `GetMetrics`. -/
def descByCheckedAt (a b : Metric) : Prop := b.checkedAt ≤ a.checkedAt

instance : DecidableRel descByCheckedAt := fun a b => Int.decLe b.checkedAt a.checkedAt

instance : IsTotal Metric descByCheckedAt :=
  ⟨fun a b => Int.le_total b.checkedAt a.checkedAt⟩

instance : IsTrans Metric descByCheckedAt :=
  ⟨fun _ _ _ hab hbc => le_trans hbc hab⟩

/-- `GetMetrics` (monitor_service.go): metrics of the monitor whose
`checked_at` is at or after `now` minus `hours` hours, sorted by
`checked_at` descending, limited to 1000 rows. -/
def GetMetrics (db : List Metric) (mid : String) (hours : Int) (now : Int) : List Metric :=
  (List.insertionSort descByCheckedAt
      (db.filter (fun m => m.monitorId == mid && decide (now - hours * 3600 ≤ m.checkedAt)))).take 1000

/-- `GetMetrics` handler (api_handlers.go): clamp the hours parameter and
query the service.  Returns the rows and the effective hours. -/
def getMetricsHandler (db : List Metric) (mid : String) (hoursParam : Option Int)
    (now : Int) : List Metric × Int :=
  let hours := clampHours hoursParam
  (GetMetrics db mid hours now, hours)

/-! ### Metrics summary (`calculateMetricsSummary`, api_handlers.go) -/

/-- Summary map returned by the metrics API. -/
structure MetricsSummary where
  totalChecks : Nat
  successfulChecks : Nat
  failedChecks : Nat
  uptimePercentage : ℚ
  averageResponse : ℚ
  minResponse : Int
  maxResponse : Int
deriving Repr, DecidableEq

/-- `calculateMetricsSummary` (api_handlers.go): all-zero summary for an
empty list (uptime 0.0); otherwise count "up" as successful and anything
else as failed, fold min and max response times starting from the first
row, and compute `successful / total * 100` and the mean response. -/
def calculateMetricsSummary (metrics : List Metric) : MetricsSummary :=
  match metrics with
  | [] => ⟨0, 0, 0, 0, 0, 0, 0⟩
  | m0 :: _ =>
      let successful := metrics.countP (fun m => m.status == "up")
      let failed := metrics.countP (fun m => !(m.status == "up"))
      let totalResponse := (metrics.map Metric.responseTime).sum
      let minR := (metrics.map Metric.responseTime).foldl min m0.responseTime
      let maxR := (metrics.map Metric.responseTime).foldl max m0.responseTime
      ⟨metrics.length, successful, failed,
       (successful : ℚ) / (metrics.length : ℚ) * 100,
       (totalResponse : ℚ) / (metrics.length : ℚ),
       minR, maxR⟩

/-- Concrete metric log with 8 "up" and 2 "down" samples for monitor
"m1", all inside the trailing window at time 0. -/
def sampleLog : List Metric :=
  [⟨"m1", "u", "up", 200, 1, "", 0⟩, ⟨"m1", "u", "up", 200, 1, "", 0⟩,
   ⟨"m1", "u", "up", 200, 1, "", 0⟩, ⟨"m1", "u", "up", 200, 1, "", 0⟩,
   ⟨"m1", "u", "up", 200, 1, "", 0⟩, ⟨"m1", "u", "up", 200, 1, "", 0⟩,
   ⟨"m1", "u", "up", 200, 1, "", 0⟩, ⟨"m1", "u", "up", 200, 1, "", 0⟩,
   ⟨"m1", "u", "down", 500, 1, "", 0⟩, ⟨"m1", "u", "down", 0, 1, "e", 0⟩]

/-- Concrete monitor used to instantiate hypotheses at witnesses. -/
def sampleMonitor : Monitor :=
  ⟨"m1", "n", "u", "GET", 30, 10, "active", true, "unknown", 0, 100, none⟩

/-! ### Theorems -/

/-- C1: for every probe, `checkEndpoint` classifies the recorded outcome
as follows: request-construction or transport-level failure gives status
"down" with HTTP code 0 and a non-empty error text (the transport error
text, assumed non-empty); a completed exchange with status code at least
400 gives "down" with the actual code and an empty error; any other
completed exchange gives "up" with the actual code and an empty error. -/
theorem probe_outcome_classification (o : ProbeOutcome) :
    (∀ msg, o = .reqError msg → msg ≠ "" →
        (classifyProbe o).status = "down" ∧ (classifyProbe o).statusCode = 0 ∧
        (classifyProbe o).errorMsg ≠ "") ∧
    (∀ msg t, o = .transportError msg t → msg ≠ "" →
        (classifyProbe o).status = "down" ∧ (classifyProbe o).statusCode = 0 ∧
        (classifyProbe o).errorMsg ≠ "") ∧
    (∀ code t, o = .response code t → 400 ≤ code →
        (classifyProbe o).status = "down" ∧ (classifyProbe o).statusCode = code ∧
        (classifyProbe o).errorMsg = "") ∧
    (∀ code t, o = .response code t → code < 400 →
        (classifyProbe o).status = "up" ∧ (classifyProbe o).statusCode = code ∧
        (classifyProbe o).errorMsg = "") := by
  refine ⟨?_, ?_, ?_, ?_⟩
  · rintro msg rfl hne
    exact ⟨rfl, rfl, hne⟩
  · rintro msg t rfl hne
    exact ⟨rfl, rfl, hne⟩
  · rintro code t rfl hc
    refine ⟨?_, rfl, rfl⟩
    simp [classifyProbe, if_pos hc]
  · rintro code t rfl hc
    refine ⟨?_, rfl, rfl⟩
    simp [classifyProbe, if_neg (not_le.mpr hc)]

/-- Witness for C1 at concrete probes: HTTP 500 classifies as "down" with
code 500, HTTP 200 as "up", and a connection-refused transport failure
as "down" with code 0 and a non-empty error. -/
theorem probe_outcome_classification_witness :
    (classifyProbe (.response 500 12)).status = "down" ∧
    (classifyProbe (.response 500 12)).statusCode = 500 ∧
    (classifyProbe (.response 200 8)).status = "up" ∧
    (classifyProbe (.transportError "connection refused" 5)).statusCode = 0 ∧
    (classifyProbe (.transportError "connection refused" 5)).errorMsg ≠ "" := by
  have h500 := (probe_outcome_classification (.response 500 12)).2.2.1 500 12 rfl (by norm_num)
  have h200 := (probe_outcome_classification (.response 200 8)).2.2.2 200 8 rfl (by norm_num)
  have hcr := (probe_outcome_classification (.transportError "connection refused" 5)).2.1
      "connection refused" 5 rfl (by decide)
  exact ⟨h500.1, h500.2.1, h200.1, hcr.2.1, hcr.2.2⟩

/-- C2: the rolling uptime percentage is recomputed after each probe over
the trailing 24-hour window of the metric log; over the samples found
there it equals `(total - down) / total * 100`, and 100 when the window
has no samples.  The third conjunct shows `recordMetric` recomputing it
from the post-insert log. -/
theorem uptime_recomputed_from_window (st : SinkState) (mon : Monitor) (r : ProbeResult)
    (now : Int) (db : List Metric) (mid : String) :
    ((uptimeWindow db mid now).length = 0 → calculateUptimePercentage db mid now = 100) ∧
    ((uptimeWindow db mid now).length ≠ 0 →
        calculateUptimePercentage db mid now =
          (((uptimeWindow db mid now).length : ℚ) -
              ((uptimeWindow db mid now).countP (fun m => m.status == "down") : ℚ)) /
            ((uptimeWindow db mid now).length : ℚ) * 100) ∧
    (recordMetric st mon r now).update.uptimePercentage =
      calculateUptimePercentage
        (st.metricsDb ++
          [⟨mon.id, mon.url, r.status, r.statusCode, r.responseTime, r.errorMsg, now⟩])
        mon.id now := by
  refine ⟨fun h => ?_, fun h => ?_, rfl⟩
  · simp [calculateUptimePercentage, h]
  · simp [calculateUptimePercentage, h]

/-- Witness for C2: a trailing window of 8 "up" and 2 "down" samples
yields uptime 80, and an empty window yields 100. -/
theorem uptime_recomputed_from_window_witness :
    calculateUptimePercentage sampleLog "m1" 0 = 80 ∧
    calculateUptimePercentage ([] : List Metric) "m1" 0 = 100 := by
  constructor
  · have h := (uptime_recomputed_from_window ⟨[], [], []⟩ sampleMonitor
        ⟨"up", 200, 1, ""⟩ 0 sampleLog "m1").2.1 (by decide)
    have hlen : (uptimeWindow sampleLog "m1" 0).length = 10 := by decide
    have hdown : (uptimeWindow sampleLog "m1" 0).countP (fun m => m.status == "down") = 2 := by
      decide
    rw [h, hlen, hdown]
    norm_num
  · exact (uptime_recomputed_from_window ⟨[], [], []⟩ sampleMonitor
        ⟨"up", 200, 1, ""⟩ 0 ([] : List Metric) "m1").1 (by decide)

/-- Helper: one registry transition preserves "at most one job entry per
monitor id". -/
theorem countP_regStep_le (s : RegState) (op : RegOp) (mid : String)
    (h : s.activeJobs.countP (fun p => p.1 == mid) ≤ 1) :
    ((regStep s op).activeJobs.countP (fun p => p.1 == mid)) ≤ 1 := by
  cases op with
  | start mid2 =>
      simp only [regStep, startMonitorJob]
      by_cases hm : (mid2 == mid) = true
      · have hz : ((s.activeJobs.filter (fun p => !(p.1 == mid2))).countP
            (fun p => p.1 == mid)) = 0 := by
          rw [List.countP_eq_zero]
          intro a ha
          have hf := List.of_mem_filter ha
          simp only [Bool.not_eq_true'] at hf
          rw [eq_of_beq hm] at hf
          simp [hf]
        simp only [List.countP_cons, hm, if_true, hz]
        omega
      · rw [Bool.not_eq_true] at hm
        have hle : ((s.activeJobs.filter (fun p => !(p.1 == mid2))).countP
            (fun p => p.1 == mid)) ≤ 1 :=
          le_trans (List.Sublist.countP_le _ (List.filter_sublist _)) h
        simp only [List.countP_cons, hm, Bool.false_eq_true, if_false, Nat.add_zero]
        exact hle
  | stop mid2 =>
      simp only [regStep, stopMonitorJob]
      cases hl : lookupJob s mid2 with
      | none => exact h
      | some c =>
          exact le_trans (List.Sublist.countP_le _ (List.filter_sublist _)) h

/-- Helper: the per-id bound holds along any run of registry operations. -/
theorem countP_runRegOps_le (ops : List RegOp) (s : RegState)
    (h : ∀ mid, s.activeJobs.countP (fun p => p.1 == mid) ≤ 1) (mid : String) :
    ((ops.foldl regStep s).activeJobs.countP (fun p => p.1 == mid)) ≤ 1 := by
  induction ops generalizing s with
  | nil => exact h mid
  | cons op rest ih =>
      exact ih (regStep s op) (fun m => countP_regStep_le s op m (h m))

/-- C3: the job registry maps each monitor id to at most one registered
scheduler loop in every reachable state, and a start on an id that
already has a loop closes the old loop's stop channel and installs the
fresh channel in the same atomic step. -/
theorem registry_single_loop_per_id :
    (∀ ops mid, ((runRegOps ops).activeJobs.countP (fun p => p.1 == mid)) ≤ 1) ∧
    (∀ s mid c, lookupJob s mid = some c →
        c ∈ (startMonitorJob s mid).closed ∧
        lookupJob (startMonitorJob s mid) mid = some s.nextChan) := by
  constructor
  · intro ops mid
    exact countP_runRegOps_le ops initialRegState (fun _ => by simp [initialRegState]) mid
  · intro s mid c hc
    constructor
    · simp only [startMonitorJob, hc]
      exact List.mem_cons_self _ _
    · simp [startMonitorJob, lookupJob, List.find?]

/-- Witness for C3: starting "m1" in a state where "m1" already has stop
channel 0 closes channel 0 and registers the fresh channel 1. -/
theorem registry_single_loop_per_id_witness :
    (0 : Nat) ∈ (startMonitorJob ⟨[("m1", 0)], [], 1⟩ "m1").closed ∧
    lookupJob (startMonitorJob ⟨[("m1", 0)], [], 1⟩ "m1") "m1" = some 1 :=
  registry_single_loop_per_id.2 ⟨[("m1", 0)], [], 1⟩ "m1" 0 (by decide)

set_option maxRecDepth 4000 in
/-- C4 counterexample: with the hub's inbound queue already holding 256
messages (its capacity), `recordMetric` blocks on the hand-off; the
event is not dropped, refuting the claimed non-blocking drop. -/
theorem recordMetric_blocks_when_hub_full :
    (recordMetric ⟨[], [], List.replicate 256 ⟨"x", .info "a" "b", ""⟩⟩
        sampleMonitor ⟨"up", 200, 1, ""⟩ 0).handOff = HandOff.blocked ∧
    HandOff.blocked ≠ HandOff.dropped := by
  exact ⟨rfl, by decide⟩

/-- C4 amended: the Result Sink hands the update event to the hub's
inbound queue with a plain blocking channel send: below capacity the
event is appended to the queue, and when the queue is saturated the
sending goroutine blocks (the event is not dropped).  The
drop-with-warning non-blocking hand-off exists only in the
`BroadcastToAll` helper, which `recordMetric` does not use. -/
theorem recordMetric_handoff_blocking (st : SinkState) (mon : Monitor) (r : ProbeResult)
    (now : Int) :
    (st.hubQueue.length < broadcastCapacity →
        (recordMetric st mon r now).handOff =
          HandOff.enqueued (st.hubQueue ++
            [⟨"metric_update", .update (recordMetric st mon r now).update, mon.id⟩]) ∧
        (recordMetric st mon r now).state.hubQueue =
          st.hubQueue ++
            [⟨"metric_update", .update (recordMetric st mon r now).update, mon.id⟩]) ∧
    (¬ st.hubQueue.length < broadcastCapacity →
        (recordMetric st mon r now).handOff = HandOff.blocked) ∧
    (∀ q mt d, broadcastCapacity ≤ q.length → BroadcastToAll q mt d = HandOff.dropped) := by
  have hkey : (recordMetric st mon r now).handOff =
      blockingSend st.hubQueue broadcastCapacity
        ⟨"metric_update", .update (recordMetric st mon r now).update, mon.id⟩ := rfl
  refine ⟨fun h => ?_, fun h => ?_, fun q mt d h => ?_⟩
  · have h1 : (recordMetric st mon r now).handOff =
        HandOff.enqueued (st.hubQueue ++
          [⟨"metric_update", .update (recordMetric st mon r now).update, mon.id⟩]) := by
      rw [hkey]
      unfold blockingSend
      rw [if_pos h]
    refine ⟨h1, ?_⟩
    have h2 : (recordMetric st mon r now).state.hubQueue =
        (match (recordMetric st mon r now).handOff with
         | HandOff.enqueued q => q
         | HandOff.blocked => st.hubQueue
         | HandOff.dropped => st.hubQueue) := rfl
    rw [h2, h1]
  · rw [hkey]
    unfold blockingSend
    rw [if_neg h]
  · unfold BroadcastToAll selectDefaultSend
    rw [if_neg (not_lt.mpr h)]

set_option maxRecDepth 4000 in
/-- Witness for C4 amended: on an empty hub queue the event is enqueued,
and on a saturated queue `BroadcastToAll` would drop. -/
theorem recordMetric_handoff_blocking_witness :
    (recordMetric ⟨[], [], []⟩ sampleMonitor ⟨"up", 200, 1, ""⟩ 0).handOff =
      HandOff.enqueued [⟨"metric_update",
        .update (recordMetric ⟨[], [], []⟩ sampleMonitor ⟨"up", 200, 1, ""⟩ 0).update,
        sampleMonitor.id⟩] ∧
    BroadcastToAll (List.replicate 256 ⟨"x", .info "a" "b", ""⟩) "metric_update"
        (.info "a" "b") = HandOff.dropped := by
  constructor
  · exact ((recordMetric_handoff_blocking ⟨[], [], []⟩ sampleMonitor
        ⟨"up", 200, 1, ""⟩ 0).1 (by decide)).1
  · exact (recordMetric_handoff_blocking ⟨[], [], []⟩ sampleMonitor
        ⟨"up", 200, 1, ""⟩ 0).2.2 _ "metric_update" (.info "a" "b") (by decide)

/-- C5: one hub broadcast delivers the event to exactly the observers
whose outbound queue has free space (each gets the event appended), and
evicts exactly the observers whose queue is full at that moment; the
surviving set and the evicted set partition the registered set, so a
saturated observer never costs a healthy one the message, and the
publisher never blocks (the broadcast is a total function of the
observer set). -/
theorem hub_broadcast_delivers_and_evicts (clients : List Client) (m : WebSocketMessage) :
    (hubBroadcast clients m).1 =
      (clients.filter (fun c => decide (c.send.length < c.sendCap))).map
        (fun c => { c with send := c.send ++ [m] }) ∧
    (hubBroadcast clients m).2 =
      (clients.filter (fun c => !decide (c.send.length < c.sendCap))).map Client.id := by
  induction clients with
  | nil => exact ⟨rfl, rfl⟩
  | cons c rest ih =>
      by_cases h : c.send.length < c.sendCap
      · simpa [hubBroadcast, List.filter_cons, h] using ih
      · simpa [hubBroadcast, List.filter_cons, h] using ih

/-- C6: a started scheduler loop performs one immediate probe, then one
probe per tick received before the cancellation signal, terminates
exactly when the signal is received (performing no further probe), and
every probe's classified result flows through the Result Sink, which
appends exactly one metric per probe. -/
theorem scheduler_loop_probe_schedule (st : SinkState) (mon : Monitor) (now : Int)
    (first : ProbeOutcome) (evts : List (LoopEvent × ProbeOutcome)) :
    (monitorJobRun first evts).1 =
      classifyProbe first ::
        (evts.takeWhile (fun p => p.1 == LoopEvent.tick)).map (fun p => classifyProbe p.2) ∧
    ((monitorJobRun first evts).2 = true ↔ ∃ p ∈ evts, p.1 = LoopEvent.stopSignal) ∧
    (monitorJobRunSink st mon now first evts).1.metricsDb.length =
      st.metricsDb.length + (monitorJobRun first evts).1.length := by
  refine ⟨?_, ?_, ?_⟩
  · have aux : ∀ l : List (LoopEvent × ProbeOutcome),
        (schedulerLoop l).1 =
          (l.takeWhile (fun p => p.1 == LoopEvent.tick)).map (fun p => classifyProbe p.2) := by
      intro l
      induction l with
      | nil => rfl
      | cons p rest ih =>
          rcases p with ⟨e, o⟩
          cases e with
          | tick => simp [schedulerLoop, List.takeWhile_cons, ih]
          | stopSignal => simp [schedulerLoop, List.takeWhile_cons]
    simp only [monitorJobRun, aux]
  · have aux : ∀ l : List (LoopEvent × ProbeOutcome),
        ((schedulerLoop l).2 = true ↔ ∃ p ∈ l, p.1 = LoopEvent.stopSignal) := by
      intro l
      induction l with
      | nil => simp [schedulerLoop]
      | cons p rest ih =>
          rcases p with ⟨e, o⟩
          cases e with
          | tick => simp [schedulerLoop, ih]
          | stopSignal => simp [schedulerLoop]
    simpa only [monitorJobRun] using aux evts
  · have aux : ∀ (rs : List ProbeResult) (s : SinkState),
        (rs.foldl (fun s r => (recordMetric s mon r now).state) s).metricsDb.length =
          s.metricsDb.length + rs.length := by
      intro rs
      induction rs with
      | nil => intro s; simp
      | cons r rest ih =>
          intro s
          have hone : ((recordMetric s mon r now).state).metricsDb.length =
              s.metricsDb.length + 1 := by
            have : ((recordMetric s mon r now).state).metricsDb =
                s.metricsDb ++
                  [⟨mon.id, mon.url, r.status, r.statusCode, r.responseTime, r.errorMsg, now⟩] :=
              rfl
            simp [this]
          simp only [List.foldl_cons, ih, hone, List.length_cons]
          omega
    simpa only [monitorJobRunSink] using aux (monitorJobRun first evts).1 st

/-- Witness for C6: a trace with two ticks, then the stop signal, then a
further tick performs exactly three probes (one immediate and one per
tick before the signal) and terminates. -/
theorem scheduler_loop_probe_schedule_witness :
    (monitorJobRun (.response 200 1)
        [(LoopEvent.tick, .response 200 1), (LoopEvent.tick, .response 500 2),
         (LoopEvent.stopSignal, .response 200 1), (LoopEvent.tick, .response 200 1)]).1.length
      = 3 ∧
    (monitorJobRun (.response 200 1)
        [(LoopEvent.tick, .response 200 1), (LoopEvent.tick, .response 500 2),
         (LoopEvent.stopSignal, .response 200 1), (LoopEvent.tick, .response 200 1)]).2
      = true := by
  constructor
  · rw [(scheduler_loop_probe_schedule ⟨[], [], []⟩ sampleMonitor 0 (.response 200 1)
        [(LoopEvent.tick, .response 200 1), (LoopEvent.tick, .response 500 2),
         (LoopEvent.stopSignal, .response 200 1), (LoopEvent.tick, .response 200 1)]).1]
    decide
  · rw [(scheduler_loop_probe_schedule ⟨[], [], []⟩ sampleMonitor 0 (.response 200 1)
        [(LoopEvent.tick, .response 200 1), (LoopEvent.tick, .response 500 2),
         (LoopEvent.stopSignal, .response 200 1), (LoopEvent.tick, .response 200 1)]).2.1]
    exact ⟨(LoopEvent.stopSignal, .response 200 1), by decide, rfl⟩

/-- C7: `CreateMonitor` fails with the duplicate-URL error, surfaced by
the handler as HTTP 409, exactly when a monitor with the same target URL
already exists; on that error the stored set of monitors is unchanged,
and otherwise the monitor is inserted and the handler returns 201. -/
theorem create_monitor_duplicate_conflict (db : List Monitor) (m : Monitor) :
    ((∃ x ∈ db, x.url = m.url) →
        CreateMonitor db m = (db, some (duplicateURLError m.url)) ∧
        createMonitorHandler db m = (db, 409)) ∧
    ((¬ ∃ x ∈ db, x.url = m.url) →
        CreateMonitor db m = (db ++ [m], none) ∧
        createMonitorHandler db m = (db ++ [m], 201)) := by
  have hcnt : (0 < db.countP (fun x => x.url == m.url)) ↔ ∃ x ∈ db, x.url = m.url := by
    rw [List.countP_pos_iff]
    simp only [beq_iff_eq]
  constructor
  · intro hex
    have h1 : CreateMonitor db m = (db, some (duplicateURLError m.url)) := by
      unfold CreateMonitor
      rw [if_pos (hcnt.mpr hex)]
    refine ⟨h1, ?_⟩
    unfold createMonitorHandler
    rw [h1]
    simp
  · intro hnex
    have h1 : CreateMonitor db m = (db ++ [m], none) := by
      unfold CreateMonitor
      rw [if_neg (fun hp => hnex (hcnt.mp hp))]
    refine ⟨h1, ?_⟩
    unfold createMonitorHandler
    rw [h1]

/-- Witness for C7: creating a monitor whose URL "u" is already stored
yields the conflict, while creating into an empty store inserts. -/
theorem create_monitor_duplicate_conflict_witness :
    createMonitorHandler [sampleMonitor]
        ⟨"m2", "n2", "u", "GET", 30, 10, "active", true, "unknown", 0, 100, none⟩ =
      ([sampleMonitor], 409) ∧
    CreateMonitor [] sampleMonitor = ([sampleMonitor], none) := by
  constructor
  · exact ((create_monitor_duplicate_conflict [sampleMonitor]
        ⟨"m2", "n2", "u", "GET", 30, 10, "active", true, "unknown", 0, 100, none⟩).1
        ⟨sampleMonitor, List.mem_cons_self _ _, rfl⟩).2
  · exact ((create_monitor_duplicate_conflict [] sampleMonitor).2 (by simp)).1

/-- C8: `DeleteMonitor` reports "monitor not found" exactly when no
monitor with the id exists; in every call it runs `stopMonitorJob` on
the id, and stopping is a no-op when no job is registered for it. -/
theorem delete_monitor_not_found (db : List Monitor) (jobs : RegState) (id : String) :
    ((DeleteMonitor db jobs id).2.2 = some "monitor not found" ↔ ¬ ∃ x ∈ db, x.id = id) ∧
    (DeleteMonitor db jobs id).2.1 = stopMonitorJob jobs id ∧
    (lookupJob jobs id = none → stopMonitorJob jobs id = jobs) := by
  have hcnt : (db.countP (fun x => x.id == id) = 0) ↔ ¬ ∃ x ∈ db, x.id = id := by
    rw [List.countP_eq_zero]
    simp only [beq_iff_eq]
    constructor
    · rintro hall ⟨x, hx, hxe⟩
      exact hall x hx hxe
    · intro hne x hx hxe
      exact hne ⟨x, hx, hxe⟩
  refine ⟨?_, ?_, ?_⟩
  · by_cases hz : db.countP (fun x => x.id == id) = 0
    · have h1 : (DeleteMonitor db jobs id).2.2 = some "monitor not found" := by
        unfold DeleteMonitor
        rw [if_pos hz]
      rw [h1]
      simp [hcnt.mp hz]
    · have h1 : (DeleteMonitor db jobs id).2.2 = none := by
        unfold DeleteMonitor
        rw [if_neg hz]
      rw [h1]
      constructor
      · intro h
        cases h
      · intro hne
        exact absurd (hcnt.mpr hne) hz
  · unfold DeleteMonitor
    by_cases hz : db.countP (fun x => x.id == id) = 0
    · rw [if_pos hz]
    · rw [if_neg hz]
  · intro h
    unfold stopMonitorJob
    rw [h]

/-- Witness for C8: deleting an unknown id from a one-monitor store
reports not-found, and stopping the absent job leaves the registry
unchanged. -/
theorem delete_monitor_not_found_witness :
    (DeleteMonitor [sampleMonitor] initialRegState "zz").2.2 = some "monitor not found" ∧
    stopMonitorJob initialRegState "zz" = initialRegState := by
  constructor
  · exact ((delete_monitor_not_found [sampleMonitor] initialRegState "zz").1).mpr (by decide)
  · exact (delete_monitor_not_found [sampleMonitor] initialRegState "zz").2.2 (by decide)

/-- C9: the metrics query is bounded: the handler clamps an absent,
non-positive or greater-than-168 hours parameter to 24, the result has
at most 1000 rows, every returned row belongs to the monitor and lies in
the lookback window, the rows are ordered by check timestamp descending,
and whenever the window holds at most 1000 rows the result is exactly
the window's rows (up to that ordering). -/
theorem get_metrics_bounded (db : List Metric) (mid : String) (hoursParam : Option Int)
    (now : Int) :
    (hoursParam = none → clampHours hoursParam = 24) ∧
    (∀ h, hoursParam = some h → (h < 1 ∨ 168 < h) → clampHours hoursParam = 24) ∧
    (∀ h, hoursParam = some h → 1 ≤ h → h ≤ 168 → clampHours hoursParam = h) ∧
    (getMetricsHandler db mid hoursParam now).1.length ≤ 1000 ∧
    List.Sorted descByCheckedAt (getMetricsHandler db mid hoursParam now).1 ∧
    (∀ m ∈ (getMetricsHandler db mid hoursParam now).1,
        m.monitorId = mid ∧ now - clampHours hoursParam * 3600 ≤ m.checkedAt) ∧
    ((db.filter (fun m => m.monitorId == mid &&
          decide (now - clampHours hoursParam * 3600 ≤ m.checkedAt))).length ≤ 1000 →
        (getMetricsHandler db mid hoursParam now).1.Perm
          (db.filter (fun m => m.monitorId == mid &&
            decide (now - clampHours hoursParam * 3600 ≤ m.checkedAt)))) := by
  refine ⟨?_, ?_, ?_, ?_, ?_, ?_, ?_⟩
  · intro h
    rw [h]
    rfl
  · rintro h rfl hor
    have hc : (decide (h < 1) || decide (168 < h)) = true := by
      rcases hor with h1 | h2
      · simp [h1]
      · simp [h2]
    show (if (decide (h < 1) || decide (168 < h)) = true then (24 : Int) else h) = 24
    rw [if_pos hc]
  · rintro h rfl h1 h168
    have hc : ¬ ((decide (h < 1) || decide (168 < h)) = true) := by
      simp only [Bool.or_eq_true, decide_eq_true_eq]
      push_neg
      exact ⟨h1, h168⟩
    show (if (decide (h < 1) || decide (168 < h)) = true then (24 : Int) else h) = h
    rw [if_neg hc]
  · exact List.length_take_le _ _
  · exact List.Pairwise.sublist (List.take_sublist _ _) (List.sorted_insertionSort _ _)
  · intro m hm
    have hm2 : m ∈ List.insertionSort descByCheckedAt
        (db.filter (fun x => x.monitorId == mid &&
          decide (now - clampHours hoursParam * 3600 ≤ x.checkedAt))) :=
      (List.take_sublist _ _).subset hm
    have hm3 := (List.perm_insertionSort descByCheckedAt _).subset hm2
    have hp := List.of_mem_filter hm3
    rw [Bool.and_eq_true] at hp
    exact ⟨eq_of_beq hp.1, of_decide_eq_true hp.2⟩
  · intro hlen
    have hlen2 : (List.insertionSort descByCheckedAt
        (db.filter (fun m => m.monitorId == mid &&
          decide (now - clampHours hoursParam * 3600 ≤ m.checkedAt)))).length ≤ 1000 := by
      rw [(List.perm_insertionSort descByCheckedAt _).length_eq]
      exact hlen
    have htake : (getMetricsHandler db mid hoursParam now).1 =
        List.insertionSort descByCheckedAt
          (db.filter (fun m => m.monitorId == mid &&
            decide (now - clampHours hoursParam * 3600 ≤ m.checkedAt))) :=
      List.take_of_length_le hlen2
    rw [htake]
    exact List.perm_insertionSort descByCheckedAt _

/-- Witness for C9: an out-of-range request of 200 hours and an absent
parameter clamp to 24 hours, a valid 48-hour request is kept, and the
query over the sample log stays within the row bound. -/
theorem get_metrics_bounded_witness :
    clampHours (some 200) = 24 ∧ clampHours none = 24 ∧ clampHours (some 48) = 48 ∧
    (getMetricsHandler sampleLog "m1" (some 48) 0).1.length ≤ 1000 := by
  refine ⟨?_, ?_, ?_, ?_⟩
  · exact (get_metrics_bounded [] "m1" (some 200) 0).2.1 200 rfl (Or.inr (by norm_num))
  · exact (get_metrics_bounded [] "m1" none 0).1 rfl
  · exact (get_metrics_bounded [] "m1" (some 48) 0).2.2.1 48 rfl (by norm_num) (by norm_num)
  · exact (get_metrics_bounded sampleLog "m1" (some 48) 0).2.2.2.1

/-- Helper: a left fold of `min` never exceeds its starting value. -/
theorem foldl_min_le_init : ∀ (l : List Int) (a : Int), l.foldl min a ≤ a
  | [], a => le_refl a
  | x :: xs, a => le_trans (foldl_min_le_init xs (min a x)) (min_le_left a x)

/-- Helper: a left fold of `min` is a lower bound of the list. -/
theorem foldl_min_le_mem : ∀ (l : List Int) (a x : Int), x ∈ l → l.foldl min a ≤ x
  | y :: ys, a, x, hx => by
      rcases List.mem_cons.mp hx with rfl | hmem
      · exact le_trans (foldl_min_le_init ys (min a x)) (min_le_right a x)
      · exact foldl_min_le_mem ys (min a y) x hmem

/-- Helper: a left fold of `min` is attained at the start or in the list. -/
theorem foldl_min_mem : ∀ (l : List Int) (a : Int), l.foldl min a ∈ a :: l
  | [], a => List.mem_cons_self a []
  | y :: ys, a => by
      have h := foldl_min_mem ys (min a y)
      rcases List.mem_cons.mp h with heq | hmem
      · rcases le_total a y with hay | hya
        · rw [List.foldl_cons, heq, min_eq_left hay]
          exact List.mem_cons_self _ _
        · rw [List.foldl_cons, heq, min_eq_right hya]
          exact List.mem_cons_of_mem _ (List.mem_cons_self _ _)
      · exact List.mem_cons_of_mem _ (List.mem_cons_of_mem _ hmem)

/-- Helper: a left fold of `max` is at least its starting value. -/
theorem foldl_max_ge_init : ∀ (l : List Int) (a : Int), a ≤ l.foldl max a
  | [], a => le_refl a
  | x :: xs, a => le_trans (le_max_left a x) (foldl_max_ge_init xs (max a x))

/-- Helper: a left fold of `max` is an upper bound of the list. -/
theorem foldl_max_ge_mem : ∀ (l : List Int) (a x : Int), x ∈ l → x ≤ l.foldl max a
  | y :: ys, a, x, hx => by
      rcases List.mem_cons.mp hx with rfl | hmem
      · exact le_trans (le_max_right a x) (foldl_max_ge_init ys (max a x))
      · exact foldl_max_ge_mem ys (max a y) x hmem

/-- Helper: a left fold of `max` is attained at the start or in the list. -/
theorem foldl_max_mem : ∀ (l : List Int) (a : Int), l.foldl max a ∈ a :: l
  | [], a => List.mem_cons_self a []
  | y :: ys, a => by
      have h := foldl_max_mem ys (max a y)
      rcases List.mem_cons.mp h with heq | hmem
      · rcases le_total a y with hay | hya
        · rw [List.foldl_cons, heq, max_eq_right hay]
          exact List.mem_cons_of_mem _ (List.mem_cons_self _ _)
        · rw [List.foldl_cons, heq, max_eq_left hya]
          exact List.mem_cons_self _ _
      · exact List.mem_cons_of_mem _ (List.mem_cons_of_mem _ hmem)

/-- C10: the metrics summary reports uptime percentage 0 (with zero
counts and response times) for an empty metric list, in contrast with
the Result Sink's fail-open uptime of 100 on an empty window; for a
non-empty list it reports `successful / total * 100` together with the
minimum, maximum and average response time. -/
theorem metrics_summary_empty_vs_fail_open (metrics : List Metric) (mid : String) (now : Int) :
    calculateMetricsSummary [] = ⟨0, 0, 0, 0, 0, 0, 0⟩ ∧
    calculateUptimePercentage [] mid now = 100 ∧
    (metrics ≠ [] →
        (calculateMetricsSummary metrics).uptimePercentage =
          ((metrics.countP (fun m => m.status == "up") : ℚ) / (metrics.length : ℚ)) * 100 ∧
        (calculateMetricsSummary metrics).totalChecks = metrics.length ∧
        (calculateMetricsSummary metrics).successfulChecks =
          metrics.countP (fun m => m.status == "up") ∧
        (calculateMetricsSummary metrics).failedChecks =
          metrics.countP (fun m => !(m.status == "up")) ∧
        (calculateMetricsSummary metrics).averageResponse =
          (((metrics.map Metric.responseTime).sum : ℚ) / (metrics.length : ℚ)) ∧
        (∀ m ∈ metrics, (calculateMetricsSummary metrics).minResponse ≤ m.responseTime ∧
            m.responseTime ≤ (calculateMetricsSummary metrics).maxResponse) ∧
        (calculateMetricsSummary metrics).minResponse ∈ metrics.map Metric.responseTime ∧
        (calculateMetricsSummary metrics).maxResponse ∈ metrics.map Metric.responseTime) := by
  refine ⟨rfl, rfl, ?_⟩
  intro hne
  obtain ⟨m0, rest, rfl⟩ := List.exists_cons_of_ne_nil hne
  refine ⟨rfl, rfl, rfl, rfl, rfl, ?_, ?_, ?_⟩
  · intro m hm
    constructor
    · exact foldl_min_le_mem ((m0 :: rest).map Metric.responseTime) m0.responseTime
        m.responseTime (List.mem_map_of_mem Metric.responseTime hm)
    · exact foldl_max_ge_mem ((m0 :: rest).map Metric.responseTime) m0.responseTime
        m.responseTime (List.mem_map_of_mem Metric.responseTime hm)
  · have h := foldl_min_mem ((m0 :: rest).map Metric.responseTime) m0.responseTime
    rcases List.mem_cons.mp h with heq | hmem
    · show ((m0 :: rest).map Metric.responseTime).foldl min m0.responseTime ∈ _
      rw [heq]
      exact List.mem_map_of_mem Metric.responseTime (List.mem_cons_self _ _)
    · exact hmem
  · have h := foldl_max_mem ((m0 :: rest).map Metric.responseTime) m0.responseTime
    rcases List.mem_cons.mp h with heq | hmem
    · show ((m0 :: rest).map Metric.responseTime).foldl max m0.responseTime ∈ _
      rw [heq]
      exact List.mem_map_of_mem Metric.responseTime (List.mem_cons_self _ _)
    · exact hmem

/-- Witness for C10: the summary of the empty list reports uptime 0 while
the Result Sink's calculation reports 100 there, and the summary of the
8-up/2-down sample log reports uptime 80 with minimum response 1. -/
theorem metrics_summary_empty_vs_fail_open_witness :
    (calculateMetricsSummary []).uptimePercentage = 0 ∧
    calculateUptimePercentage [] "m1" 0 = 100 ∧
    (calculateMetricsSummary sampleLog).uptimePercentage = 80 ∧
    (calculateMetricsSummary sampleLog).minResponse = 1 := by
  refine ⟨?_, ?_, ?_, by decide⟩
  · rw [(metrics_summary_empty_vs_fail_open [] "m1" 0).1]
  · exact (metrics_summary_empty_vs_fail_open [] "m1" 0).2.1
  · have h := ((metrics_summary_empty_vs_fail_open sampleLog "m1" 0).2.2
        (by simp [sampleLog])).1
    have hc : sampleLog.countP (fun m => m.status == "up") = 8 := by decide
    have hl : sampleLog.length = 10 := by decide
    rw [h, hc, hl]
    norm_num

end MonitoringTool
